import Mathlib

/-!
Shallow embedding of the shakenfist k3s cluster-orchestration plugin
(`shakenfist_client_k3s/__init__.py` and `shakenfist_client_k3s/primitives.py`).

Remote collaborators (the compute API, the network API, the namespace
metadata store, the release feed) are modelled as explicit environment
parameters; polling loops are modelled with an explicit fuel argument,
where returning `none` means the loop did not terminate within the given
fuel.  Persistence (`set_namespace_metadata_item` / `set_cluster_metadata`)
is modelled as an explicit write log.
-/

namespace K3sPlugin

/-! ## Cluster record (`md` dict in the source) -/

/-- The cluster metadata record, mirroring the dict initialised in
`k3s_create` (`__init__.py`).  Only the fields the verified properties
touch are carried. -/
structure ClusterMd where
  name : String
  namespc : String
  node_serial : Nat
  node_network : String
  control_plane_nodes : List String
  worker_nodes : List String
  routed_addresses : List String
deriving DecidableEq, Repr

/-- Python `'%03d' % n`: decimal rendering of `n`, left padded with zeros to at
least three digits. -/
def pad3 (n : Nat) : String :=
  let s := toString n
  if s.length < 3 then String.mk (List.replicate (3 - s.length) '0') ++ s else s

/-- Python `'k3s-%s-node-%03d' % (md['name'], md['node_serial'])` — the generated
node name (`_create_instance` in `__init__.py`, `create_instance` in
`primitives.py`). -/
def nodeName (cluster : String) (serial : Nat) : String :=
  "k3s-" ++ cluster ++ "-node-" ++ pad3 serial

/-! ## Release version resolver (`get_k3s_release` in `primitives.py`,
`_get_k3s_release` in `__init__.py`; both bodies are identical for the
behaviour modelled here). -/

/-- The per-namespace version cache value.  `releases = none` models a
dict with no `'releases'` key (as in the literal `{'updated': 0}` built
on the forced path); the stored default used when the metadata key is
absent is `{'updated': 0, 'releases': {}}`, i.e. `⟨0, some []⟩`. -/
structure VersionCache where
  updated : Nat
  releases : Option (List (String × String))
deriving DecidableEq, Repr

/-- Python dict lookup over an association list built by repeated
assignment: a later binding for the same key overwrites an earlier one,
so lookup takes the last matching entry. -/
def dictGet (rs : List (String × String)) (c : String) : Option String :=
  (rs.reverse.find? (fun p => p.1 == c)).map (fun p => p.2)

/-- Outcome of a release lookup.  `keyError` models the Python
`KeyError` raised when `version_cache['releases']` is accessed on a
cache value without that key. -/
inductive ReleaseOutcome where
  | ok : String → ReleaseOutcome
  | channelNotFound : String → ReleaseOutcome
  | keyError : ReleaseOutcome
deriving DecidableEq, Repr

/-- Source `most_recent = version_cache['releases'].get(release_channel, None);
if not most_recent: sys.exit(1)` — a missing channel and an empty-string
version are both falsy and reported as the unknown-channel failure. -/
def resolveMostRecent (rs : List (String × String)) (channel : String) : ReleaseOutcome :=
  match dictGet rs channel with
  | none => .channelNotFound channel
  | some v => if v = "" then .channelNotFound channel else .ok v

/-- What one call to `get_k3s_release` did: whether the release listing
was re-fetched, what cache value (if any) was written back to the
namespace metadata, and the returned version or failure. -/
structure ReleaseResult where
  refreshed : Bool
  persisted : Option VersionCache
  outcome : ReleaseOutcome
deriving DecidableEq, Repr

/-- Model of `get_k3s_release(ctx, force_cache_update, release_channel)`
(`primitives.py` lines 50–105).  `now` is `time.time()`, `cached` the
value stored under the version-cache metadata key (`none` when the key
is absent), and `fetched` the channel listing the external feed would
return (`{reldata['name']: reldata['latest']}` in fetch order). -/
def get_k3s_release (now : Nat) (cached : Option VersionCache)
    (fetched : List (String × String)) (force : Bool) (channel : String) :
    ReleaseResult :=
  let version_cache : VersionCache :=
    if force then { updated := 0, releases := none }
    else cached.getD { updated := 0, releases := some [] }
  let updated := version_cache.updated
  if 24 * 3600 < now - updated then
    let vc : VersionCache := { updated := now, releases := some fetched }
    { refreshed := true
      persisted := some vc
      outcome := resolveMostRecent fetched channel }
  else
    { refreshed := false
      persisted := none
      outcome :=
        match version_cache.releases with
        | none => .keyError
        | some rs => resolveMostRecent rs channel }

/-! ## Agent operation polling: file fetch (`await_fetch` in
`primitives.py` lines 249–265, `_await_fetch` in `__init__.py`
lines 159–168). -/

/-- An agent operation as observed by a poll, restricted to the fields
the fetch path reads: `state`, and the first result's `path`, `message`
and `content_blob` (`aop['results']['0']`). -/
structure AgentOpF where
  state : String
  path : String
  message : String
  contentBlob : String
deriving DecidableEq, Repr

/-- Environment for a fetch wait: `op i` is the operation as returned by
the `i`-th observation (`op 0` is the `aop` passed in, later indices the
results of `get_agent_operation`); `chunks b` the byte chunks streamed
by `get_blob_data(b)`; `decode` the UTF-8 text decoding of a byte
string. -/
structure FetchEnv where
  op : Nat → AgentOpF
  chunks : String → List (List Nat)
  decode : List Nat → String

/-- The failure raised by `await_fetch` when the operation ends in the
`error` state: the printed diagnostic carries the remote path and the
message, then the process exits. -/
structure FetchError where
  path : String
  message : String
deriving DecidableEq, Repr

/-- Test `aop['state'] in ['complete', 'error']` — the loop guard of
`await_fetch`. -/
def fetchTerminal (s : String) : Bool :=
  s == "complete" || s == "error"

/-- The value `await_fetch` produces once it observes the operation in a
terminal state: the fetch failure on `error`, otherwise the blob chunks
concatenated (`data += chunk`) and decoded (`data.decode('utf-8')`). -/
def fetchAnswer (env : FetchEnv) (i : Nat) : Except FetchError String :=
  let aop := env.op i
  if aop.state == "error" then .error ⟨aop.path, aop.message⟩
  else .ok (env.decode (env.chunks aop.contentBlob).flatten)

/-- Model of `await_fetch` from `primitives.py`, with fuel: poll from observation
`i` while the state is neither `complete` nor `error`; on `error` fail
with the fetch error, on `complete` return the decoded concatenated blob
chunks.  `none` means the loop was still polling after `fuel` steps. -/
def await_fetch_run (env : FetchEnv) : Nat → Nat → Option (Except FetchError String)
  | 0, _ => none
  | fuel + 1, i =>
    if fetchTerminal (env.op i).state then some (fetchAnswer env i)
    else await_fetch_run env fuel (i + 1)

/-- Model of `_await_fetch` from `__init__.py`, with fuel: poll while the state
is not `complete`; there is no branch for the `error` state. -/
def init_await_fetch_run (env : FetchEnv) : Nat → Nat → Option String
  | 0, _ => none
  | fuel + 1, i =>
    if (env.op i).state == "complete" then
      some (env.decode (env.chunks (env.op i).contentBlob).flatten)
    else init_await_fetch_run env fuel (i + 1)

/-! ## Agent operation polling: command reaping (`reap_execute` in
`primitives.py` lines 268–285, `_reap_execute` in `__init__.py`). -/

/-- The first result of a completed command operation
(`aop['results']['0']`). -/
structure ExecResult where
  returnCode : Int
  stdout : String
  stderr : String
deriving DecidableEq, Repr

/-- The fatal command failure surfaced by `reap_execute` before
`sys.exit(1)`: the command line (`aop['commands'][0]['commandline']`),
the exit code and the captured output. -/
structure CommandFailed where
  commandline : String
  exitCode : Int
  stdout : String
  stderr : String
deriving DecidableEq, Repr

/-- The polling loop of `reap_execute` / `_reap_execute`:
`while aop['state'] != 'complete': sleep; re-fetch`.  `states i` is the
state seen by the `i`-th observation; the result is the observation
index at which `complete` was seen, or `none` if the loop was still
polling after `fuel` steps. -/
def reap_execute_loop (states : Nat → String) : Nat → Nat → Option Nat
  | 0, _ => none
  | fuel + 1, i =>
    if states i == "complete" then some i
    else reap_execute_loop states fuel (i + 1)

/-! ## Batch execution (`execute_and_await` in `primitives.py`
lines 305–315). -/

/-- The environment for reaping a batch: the final first-result of the
operation submitted for a given (instance, command) pair, once that
operation is complete. -/
structure ExecEnv where
  result : String × String → ExecResult

/-- The submission loop of `execute_and_await`:
`for cmd in cmds: for instance_uuid in instance_uuids: submit` — one
operation per (command, instance) pair, command-major order.  Each
submission is recorded as the pair `(instance, command)`. -/
def submitOps (cmds : List String) (insts : List String) : List (String × String) :=
  cmds.flatMap (fun c => insts.map (fun i => (i, c)))

/-- Reaping one completed operation: a non-zero return code is fatal and
carries the command line, exit code, stdout and stderr
(`reap_execute`). -/
def reapOne (env : ExecEnv) (op : String × String) : Except CommandFailed Unit :=
  let r := env.result op
  if r.returnCode = 0 then .ok ()
  else .error ⟨op.2, r.returnCode, r.stdout, r.stderr⟩

/-- Loop `for aop in aops: reap_execute(ctx, aop)` — operations are reaped in
submission order and the first failure aborts (`sys.exit(1)`); the
returned list records which operations were actually reaped. -/
def reapAll (env : ExecEnv) : List (String × String) →
    List (String × String) × Except CommandFailed Unit
  | [] => ([], .ok ())
  | op :: rest =>
    match reapOne env op with
    | .error e => ([op], .error e)
    | .ok _ =>
      let r := reapAll env rest
      (op :: r.1, r.2)

/-- What one call to `execute_and_await` did: the operations submitted,
the argument of the single `await_idle` call, the operations reaped, and
the overall result. -/
structure ExecOutcome where
  submitted : List (String × String)
  idleWaits : List (List String)
  reaped : List (String × String)
  result : Except CommandFailed Unit
deriving Repr

/-- Model of `execute_and_await(ctx, instance_uuids, cmds)`: submit the full
cartesian product, wait once for all the instances to be idle, then reap
every submitted operation in order (assuming every operation completes;
the non-completing case is modelled by `reap_batch_run` below). -/
def execute_and_await (env : ExecEnv) (insts cmds : List String) : ExecOutcome :=
  let aops := submitOps cmds insts
  let r := reapAll env aops
  { submitted := aops, idleWaits := [insts], reaped := r.1, result := r.2 }

/-- The reap phase of `execute_and_await` with the polling of
`reap_execute` made explicit: `stateOf o i` is the state of operation
`o` at its `i`-th observation, `resOf o` its first result once complete,
`cmdOf o` its command line.  `none` means some reap loop was still
polling after `fuel` steps, i.e. the batch never returned. -/
def reap_batch_run (stateOf : α → Nat → String) (resOf : α → ExecResult)
    (cmdOf : α → String) (fuel : Nat) : List α → Option (Except CommandFailed Unit)
  | [] => some (.ok ())
  | o :: rest =>
    match reap_execute_loop (stateOf o) fuel 0 with
    | none => none
    | some _ =>
      if (resOf o).returnCode = 0 then reap_batch_run stateOf resOf cmdOf fuel rest
      else some (.error ⟨cmdOf o, (resOf o).returnCode, (resOf o).stdout, (resOf o).stderr⟩)

/-! ## Boot wait (`await_boot` in `primitives.py` lines 207–222;
`_await_boot` in `__init__.py` is the same loop with the OS-update
commands submitted inline at the moment of satisfaction). -/

/-- The observable the boot loop polls per instance: the pair
`(inst['state'], inst['agent_state'])` at a given pass. -/
structure BootEnv where
  instState : Nat → String → String × String

/-- Test `inst['state'] == 'created' and inst['agent_state'] == 'ready'` —
the satisfaction test of the boot loop.  `created` is the power state a
running instance reports. -/
def bootSatisfied (p : String × String) : Bool :=
  p.1 == "created" && p.2 == "ready"

/-- One pass of the boot loop: every instance observed satisfied on this
pass is removed from the wait set; the rest stay, in order. -/
def bootPass (env : BootEnv) (pass : Nat) (waiting : List String) : List String :=
  waiting.filter (fun u => ¬ bootSatisfied (env.instState pass u))

/-- The `while waiting:` loop of `await_boot`, with fuel: returns the
number of passes executed, or `none` when the wait set was still
non-empty after `fuel` passes. -/
def await_boot_loop (env : BootEnv) : Nat → Nat → List String → Option Nat
  | _, pass, [] => some pass
  | 0, _, _ :: _ => none
  | fuel + 1, pass, u :: rest =>
    await_boot_loop env fuel (pass + 1) (bootPass env pass (u :: rest))

/-- The OS-update command sequence triggered by `await_boot` after the
wait set empties (`instance_os_update` → `execute_and_await` with
`apt-get update; apt-get dist-upgrade -y` against the full instance
list), recorded as the (instance, command) submissions it makes. -/
def osUpdateCommands (instances : List String) : List (String × String) :=
  submitOps ["apt-get update", "apt-get dist-upgrade -y"] instances

/-- Model of `await_boot(ctx, instances)`: run the wait loop, then trigger the
OS-update sequence.  Returns the pass count and the OS-update
submissions on return; `none` when the loop never finished. -/
def await_boot (env : BootEnv) (fuel : Nat) (instances : List String) :
    Option (Nat × List (String × String)) :=
  (await_boot_loop env fuel 0 instances).map (fun p => (p, osUpdateCommands instances))

/-! ## Instance creation (`create_instance` in `primitives.py`
lines 178–204, `_create_instance` in `__init__.py` lines 90–115) and
fleet creation (`create_and_await_instances` in `primitives.py`
lines 288–302). -/

/-- The fixed hardware template passed to
`ctx.obj['CLIENT'].create_instance(...)`: the generated name, 2 vCPUs,
2048 MB, one virtio interface on the cluster's node network with a
floating address, one 50 GB disk from the fixed base OS image, and the
`sf-agent` side channel. -/
structure InstanceSpec where
  name : String
  cpus : Nat
  memory : Nat
  networkUuid : String
  float : Bool
  diskSize : Nat
  diskBase : String
  sideChannels : List String
  namespc : String
deriving DecidableEq, Repr

/-- The instance specification both implementations build from the
cluster record. -/
def instanceSpec (md : ClusterMd) : InstanceSpec :=
  { name := nodeName md.name md.node_serial
    cpus := 2
    memory := 2048
    networkUuid := md.node_network
    float := true
    diskSize := 50
    diskBase := "debian:12"
    sideChannels := ["sf-agent"]
    namespc := md.namespc }

/-- Result of a single instance-creation call: the cluster record as the
function leaves it, the specification of the instance it allocated, and
the metadata writes it performed. -/
structure CreateResult where
  md : ClusterMd
  spec : InstanceSpec
  writes : List ClusterMd
deriving Repr

/-- Model of `_create_instance(ctx, md)` (`__init__.py`): allocate one instance
from the template named by the current serial, then
`md['node_serial'] += 1`; no metadata write. -/
def init_create_instance (md : ClusterMd) : CreateResult :=
  { md := { md with node_serial := md.node_serial + 1 }
    spec := instanceSpec md
    writes := [] }

/-- Model of `create_instance(ctx)` (`primitives.py`): allocate one instance from
the template named by the current serial and return it; the record is
not modified and nothing is written — the caller increments the serial
and persists. -/
def prim_create_instance (md : ClusterMd) : CreateResult :=
  { md := md, spec := instanceSpec md, writes := [] }

/-- The role a fleet is created for (`node_type` in
`create_and_await_instances`). -/
inductive NodeRole where
  | control_plane
  | worker
deriving DecidableEq, Repr

/-- Update `md[f'{node_type}_nodes'].append(inst['uuid'])`. -/
def addRoleNode (r : NodeRole) (u : String) (md : ClusterMd) : ClusterMd :=
  match r with
  | .control_plane => { md with control_plane_nodes := md.control_plane_nodes ++ [u] }
  | .worker => { md with worker_nodes := md.worker_nodes ++ [u] }

/-- Result of a fleet creation: final record, uuids of the new nodes,
the specifications of the instances created, and the metadata writes in
order. -/
structure FleetResult where
  md : ClusterMd
  newNodes : List String
  specs : List InstanceSpec
  writes : List ClusterMd
deriving Repr

/-- The creation loop of `create_and_await_instances`: for each of
`count` iterations, create an instance (named from the current serial),
record its uuid (`uuids` supplies the uuid the compute API returns for
the `i`-th creation), increment the serial, append the uuid to the role
list, and persist the record. -/
def fleetLoop (uuids : Nat → String) (role : NodeRole) :
    Nat → Nat → ClusterMd → FleetResult
  | 0, _, md => { md := md, newNodes := [], specs := [], writes := [] }
  | n + 1, i, md =>
    let spec := (prim_create_instance md).spec
    let u := uuids i
    let md1 := addRoleNode role u { md with node_serial := md.node_serial + 1 }
    let r := fleetLoop uuids role n (i + 1) md1
    { md := r.md
      newNodes := u :: r.newNodes
      specs := spec :: r.specs
      writes := md1 :: r.writes }

/-- Model of `create_and_await_instances(ctx, count, node_type)`: the creation
loop, then `await_boot` on the new nodes (abstracted; see `await_boot`)
and one final persist of the record. -/
def create_and_await_instances (uuids : Nat → String) (role : NodeRole)
    (count : Nat) (md : ClusterMd) : FleetResult :=
  let r := fleetLoop uuids role count 0 md
  { r with writes := r.writes ++ [r.md] }

/-! ## Cluster record lifecycle across create / teardown / re-create
(`k3s_create` initialising `node_serial = 1`, `_create_instance`
incrementing it, `k3s_delete` removing the record entirely). -/

/-- The namespace-history events that touch the node serial: creating a
cluster of a given name (`k3s_create` initialises the record with
`node_serial = 1`), creating an instance in the current cluster
(`_create_instance`), and full teardown (`k3s_delete` deletes the
metadata record and the name-index entry). -/
inductive ClusterEvent where
  | createCluster
  | addInstance
  | teardown
deriving DecidableEq, Repr

/-- The record `k3s_create` initialises (topology fields empty,
`node_serial = 1`). -/
def initialMd (name namespc network : String) : ClusterMd :=
  { name := name
    namespc := namespc
    node_serial := 1
    node_network := network
    control_plane_nodes := []
    worker_nodes := []
    routed_addresses := [] }

/-- One namespace-history step for a fixed cluster name: the state is
the stored record (or `none` after teardown / before first create)
paired with the reversed log of serials used to name created instances.
A `createCluster` on an existing name fails (`name is already taken`)
and an `addInstance` without a record fails; both are modelled as
`none`. -/
def clusterStep (name namespc network : String) :
    Option ClusterMd × List Nat → ClusterEvent → Option (Option ClusterMd × List Nat)
  | (none, log), .createCluster => some (some (initialMd name namespc network), log)
  | (some _, _), .createCluster => none
  | (some md, log), .addInstance =>
    some (some (init_create_instance md).md, md.node_serial :: log)
  | (none, _), .addInstance => none
  | (some _, log), .teardown => some (none, log)
  | (none, _), .teardown => none

/-- Run a list of events from a starting state, recording the serials
used for instance names (most recent first). -/
def clusterRun (name namespc network : String) :
    Option ClusterMd × List Nat → List ClusterEvent → Option (Option ClusterMd × List Nat)
  | st, [] => some st
  | st, e :: es =>
    match clusterStep name namespc network st e with
    | none => none
    | some st1 => clusterRun name namespc network st1 es

/-! ## Teardown (`k3s_delete` in `__init__.py` lines 561–655). -/

/-- Environment for the deletion phase: `alive u` is whether
`get_instance(u)` finds the instance (a dead instance raises
`ResourceNotFoundException`, which the loop swallows), and
`stateAt p u` the state reported at wait pass `p` (`none` again meaning
not found). -/
structure DeleteEnv where
  alive : String → Bool
  stateAt : Nat → String → Option String

/-- The deletion phase of `k3s_delete`:
`for instance_uuid in set(cp + ws): try: get; delete; append to waiting
except ResourceNotFoundException: pass`.  Python's `set` iterates each
distinct element once, modelled by `dedup`; instances that are already
gone receive no delete call and do not join the wait set. -/
def deleteInstancesCalls (env : DeleteEnv) (cp ws : List String) : List String :=
  ((cp ++ ws).dedup).filter env.alive

/-- One pass of the deletion wait loop: an instance leaves the wait set
when it reports state `deleted` or is no longer found. -/
def deleteWaitPass (env : DeleteEnv) (pass : Nat) (waiting : List String) : List String :=
  waiting.filter (fun u =>
    match env.stateAt pass u with
    | none => false
    | some s => s ≠ "deleted")

/-- The `while waiting:` loop of `k3s_delete`, with fuel: returns the
number of passes executed, `none` when the wait set was still non-empty
after `fuel` passes. -/
def delete_wait_loop (env : DeleteEnv) : Nat → Nat → List String → Option Nat
  | _, pass, [] => some pass
  | 0, _, _ :: _ => none
  | fuel + 1, pass, u :: rest =>
    delete_wait_loop env fuel (pass + 1) (deleteWaitPass env pass (u :: rest))

/-! ## Load-balancer address allocation (`allocate_metallb_addresses` in
`primitives.py` lines 415–425; the inline copy in `k3s_create`,
`__init__.py` lines 410–418, has the same shape). -/

/-- Observable events of the allocation step, in program order: each
`route_network_address` call with the address it returned (`none` when
no address was available), and each `set_cluster_metadata` /
`set_namespace_metadata_item` write with the record written. -/
inductive AllocEvent where
  | routed : Option String → AllocEvent
  | persisted : ClusterMd → AllocEvent
deriving DecidableEq, Repr

/-- Whether an allocation event is a metadata write. -/
def AllocEvent.isPersisted : AllocEvent → Bool
  | .persisted _ => true
  | .routed _ => false

/-- The allocation loop: `for i in range(count): addr = route(); if
addr: md['routed_addresses'].append(addr)`.  No write happens inside
the loop. -/
def allocLoop (addrs : Nat → Option String) :
    Nat → Nat → ClusterMd → ClusterMd × List AllocEvent
  | 0, _, md => (md, [])
  | n + 1, i, md =>
    let md1 :=
      match addrs i with
      | some a => { md with routed_addresses := md.routed_addresses ++ [a] }
      | none => md
    let r := allocLoop addrs n (i + 1) md1
    (r.1, .routed (addrs i) :: r.2)

/-- Model of `allocate_metallb_addresses(ctx, metal_address_count)`: run the
allocation loop, then persist the record once
(`set_cluster_metadata(ctx, md)` after the loop). -/
def allocate_metallb_addresses (addrs : Nat → Option String) (count : Nat)
    (md : ClusterMd) : ClusterMd × List AllocEvent :=
  let r := allocLoop addrs count 0 md
  (r.1, r.2 ++ [.persisted r.1])

/-! ## Kubeconfig rewrite (`k3s_create`, `__init__.py` lines 367–383).

The source performs `kubeconfig.replace('127.0.0.1', floating)` on the
raw YAML text and then parses it; here the document is already
structured, so the textual substitution is rendered as
`String.replace · "127.0.0.1" floating` applied to every scalar string
of the document (the address never spans two YAML scalars). -/

/-- One entry of `clusters`: its `name`, the nested cluster body's
`server` address, and the remaining body fields as scalar pairs. -/
structure KCluster where
  name : String
  server : String
  extra : List (String × String)
deriving DecidableEq, Repr

/-- One entry of `contexts`: its `name` and the nested context body's
`cluster` and `user` references, plus remaining fields. -/
structure KContext where
  name : String
  cluster : String
  user : String
  extra : List (String × String)
deriving DecidableEq, Repr

/-- One entry of `users`: its `name` plus remaining body fields. -/
structure KUser where
  name : String
  extra : List (String × String)
deriving DecidableEq, Repr

/-- A kubeconfig document: the three entry lists, the `current-context`
scalar, and any remaining top-level scalar fields. -/
structure KubeConfig where
  clusters : List KCluster
  contexts : List KContext
  users : List KUser
  currentContext : String
  extra : List (String × String)
deriving DecidableEq, Repr

/-- Apply a string substitution to every scalar of a pair list. -/
def replacePairs (f : String → String) (l : List (String × String)) :
    List (String × String) :=
  l.map (fun p => (f p.1, f p.2))

/-- Apply a string substitution to every scalar of a cluster entry. -/
def replaceCluster (f : String → String) (c : KCluster) : KCluster :=
  { name := f c.name, server := f c.server, extra := replacePairs f c.extra }

/-- Apply a string substitution to every scalar of a context entry. -/
def replaceContext (f : String → String) (c : KContext) : KContext :=
  { name := f c.name, cluster := f c.cluster, user := f c.user
    extra := replacePairs f c.extra }

/-- Apply a string substitution to every scalar of a user entry. -/
def replaceUser (f : String → String) (u : KUser) : KUser :=
  { name := f u.name, extra := replacePairs f u.extra }

/-- Left-to-right, non-overlapping replacement of a non-empty pattern,
as Python's `str.replace`: at each position, if the pattern starts
there, emit the substitute and skip past the occurrence, else keep the
character and move one position right.  The fuel argument (instantiated
with the string length) only bounds the recursion. -/
def replaceAux (pat sub : List Char) : Nat → List Char → List Char
  | 0, s => s
  | fuel + 1, s =>
    match s with
    | [] => []
    | c :: rest =>
      if pat.isPrefixOf s then sub ++ replaceAux pat sub fuel (s.drop pat.length)
      else c :: replaceAux pat sub fuel rest

/-- Python `s.replace(pat, sub)` for a non-empty pattern. -/
def strReplace (s pat sub : String) : String :=
  ⟨replaceAux pat.data sub.data s.data.length s.data⟩

/-- The textual substitution performed on the raw kubeconfig document:
`kubeconfig.replace('127.0.0.1', md['api_address_floating'])`. -/
def loopbackToFloating (floating : String) : String → String :=
  fun s => strReplace s "127.0.0.1" floating

/-- Substitution `kubeconfig.replace('127.0.0.1', floating)` applied to the whole
document: every scalar string is rewritten. -/
def kcReplaceAddr (floating : String) (kc : KubeConfig) : KubeConfig :=
  let f := loopbackToFloating floating
  { clusters := kc.clusters.map (replaceCluster f)
    contexts := kc.contexts.map (replaceContext f)
    users := kc.users.map (replaceUser f)
    currentContext := f kc.currentContext
    extra := replacePairs f kc.extra }

/-- The kubeconfig rewrite step of `k3s_create`: substitute the loopback
address in the fetched text, then set
`clusters[0].name`, `contexts[0].name`, `contexts[0].context.cluster`,
`contexts[0].context.user`, `users[0].name` and `current-context` to the
fully-qualified name `name.namespace`.  Indexing an empty list raises in
Python; modelled as `none`. -/
def rewriteKubeconfig (name namespc floating : String) (kc : KubeConfig) :
    Option KubeConfig :=
  let kc1 := kcReplaceAddr floating kc
  let fqcn := name ++ "." ++ namespc
  match kc1.clusters, kc1.contexts, kc1.users with
  | c :: cs, x :: xs, u :: us =>
    some { clusters := { c with name := fqcn } :: cs
           contexts := { x with name := fqcn, cluster := fqcn, user := fqcn } :: xs
           users := { u with name := fqcn } :: us
           currentContext := fqcn
           extra := kc1.extra }
  | _, _, _ => none

/-! ## Theorems -/

/-- C2: the release resolver refreshes exactly when a refresh is forced
or the cached `updated` timestamp is older than 24 hours (for any
realistic clock, i.e. one more than 24 hours past the epoch); a lookup
against a fresh, unforced cache whose mapping lacks the requested
channel fails with the unknown-channel error without refreshing or
persisting anything; a lookup against a cache older than 24 hours
re-fetches the listing, persists a refreshed cache stamped with the
current time, and resolves the channel against the freshly fetched
mapping. -/
theorem get_k3s_release_cache_policy (now : Nat) (cached : Option VersionCache)
    (fetched : List (String × String)) (force : Bool) (channel : String)
    (rs : List (String × String)) (hnow : 24 * 3600 < now) :
    ((get_k3s_release now cached fetched force channel).refreshed
        = (force || decide (24 * 3600 < now - (cached.getD ⟨0, some []⟩).updated)))
    ∧ (force = false → now - (cached.getD ⟨0, some []⟩).updated ≤ 24 * 3600 →
        (cached.getD ⟨0, some []⟩).releases = some rs →
        dictGet rs channel = none →
        get_k3s_release now cached fetched force channel
          = ⟨false, none, .channelNotFound channel⟩)
    ∧ (24 * 3600 < now - (cached.getD ⟨0, some []⟩).updated →
        (get_k3s_release now cached fetched force channel).refreshed = true
        ∧ (get_k3s_release now cached fetched force channel).persisted
            = some ⟨now, some fetched⟩
        ∧ (get_k3s_release now cached fetched force channel).outcome
            = resolveMostRecent fetched channel) := by
  cases force with
  | true =>
    refine ⟨by simp [get_k3s_release, hnow], fun h => by simp at h, fun _ => ?_⟩
    simp [get_k3s_release, hnow]
  | false =>
    by_cases h : 24 * 3600 < now - (cached.getD ⟨0, some []⟩).updated
    · refine ⟨by simp [get_k3s_release, h], fun _ hle => absurd h (by omega), fun _ => ?_⟩
      simp [get_k3s_release, h]
    · refine ⟨by simp [get_k3s_release, h], fun _ _ hrel hget => ?_, fun hlt => absurd hlt h⟩
      simp [get_k3s_release, h, hrel, resolveMostRecent, hget]

/-- Witness for C2: a concrete fresh cache lacking the requested channel
produces the unknown-channel failure with no refresh and no write. -/
theorem get_k3s_release_cache_policy_witness :
    get_k3s_release 200000 (some ⟨150000, some [("stable", "v1.30")]⟩)
        [("latest", "v1.31")] false "latest"
      = ⟨false, none, .channelNotFound "latest"⟩ :=
  (get_k3s_release_cache_policy 200000 (some ⟨150000, some [("stable", "v1.30")]⟩)
      [("latest", "v1.31")] false "latest" [("stable", "v1.30")]
      (by decide)).2.1 rfl (by decide) rfl (by decide)

/-- If the operation is never seen in a terminal state before `n`, the
`await_fetch` loop reaches observation `n` and answers from it. -/
lemma await_fetch_run_reaches (env : FetchEnv) :
    ∀ fuel i n, i ≤ n → n - i < fuel →
      (∀ j, i ≤ j → j < n → fetchTerminal (env.op j).state = false) →
      fetchTerminal (env.op n).state = true →
      await_fetch_run env fuel i = some (fetchAnswer env n) := by
  intro fuel
  induction fuel with
  | zero => intro i n _ h; omega
  | succ fuel ih =>
    intro i n hle hlt hpre ht
    by_cases hin : i = n
    · subst hin
      simp [await_fetch_run, ht]
    · have hi : fetchTerminal (env.op i).state = false := hpre i le_rfl (by omega)
      simp only [await_fetch_run, hi, Bool.false_eq_true, if_false]
      exact ih (i + 1) n (by omega) (by omega) (fun j hj hj2 => hpre j (by omega) hj2) ht

/-- If the operation is never in state `complete`, the `_await_fetch`
loop of `__init__.py` polls forever. -/
lemma init_await_fetch_run_stuck (env : FetchEnv)
    (h : ∀ j, (env.op j).state ≠ "complete") :
    ∀ fuel i, init_await_fetch_run env fuel i = none := by
  intro fuel
  induction fuel with
  | zero => intro i; rfl
  | succ fuel ih =>
    intro i
    have hb : ((env.op i).state == "complete") = false := by
      simpa using h i
    simp [init_await_fetch_run, hb, ih]

/-- A fetch operation that is permanently in the terminal `error`
state. -/
def stuckErrorFetchEnv : FetchEnv :=
  { op := fun _ => ⟨"error", "/var/lib/rancher/k3s/server/node-token", "boom", "b0"⟩
    chunks := fun _ => []
    decode := fun _ => "" }

/-- Counterexample to C3: on an operation whose terminal state is
`error`, `await_fetch` (`primitives.py`) fails at once with the fetch
error carrying the remote path and message, but `_await_fetch`
(`__init__.py`, equally cited by the claim) has no `error` branch: it
keeps polling and never returns, for any number of poll steps. -/
theorem await_fetch_error_state_divergence :
    await_fetch_run stuckErrorFetchEnv 1 0
        = some (.error ⟨"/var/lib/rancher/k3s/server/node-token", "boom"⟩)
    ∧ init_await_fetch_run stuckErrorFetchEnv 1000 0 = none
    ∧ (∀ fuel, init_await_fetch_run stuckErrorFetchEnv fuel 0 = none) := by
  have h : ∀ j, (stuckErrorFetchEnv.op j).state ≠ "complete" := fun _ => by
    show "error" ≠ "complete"; decide
  exact ⟨rfl, init_await_fetch_run_stuck stuckErrorFetchEnv h 1000 0,
    fun fuel => init_await_fetch_run_stuck stuckErrorFetchEnv h fuel 0⟩

/-- C3 (amended): `await_fetch` from `primitives.py` polls the
operation until the first observation `n` in a terminal state
(`complete` or `error`); when that terminal state is `error` it fails
with a fetch error carrying the remote path and message, and when it is
`complete` it returns the referenced content blob's chunks concatenated
and decoded as text.  The `_await_fetch` copy in `__init__.py` polls
only for `complete`: on an operation that is never `complete` (in
particular one whose terminal state is `error`) it never returns. -/
theorem await_fetch_terminal_behaviour (env : FetchEnv) (fuel n : Nat)
    (hfuel : n < fuel)
    (hpre : ∀ j, j < n → fetchTerminal (env.op j).state = false)
    (ht : fetchTerminal (env.op n).state = true) :
    (await_fetch_run env fuel 0
        = some (if (env.op n).state == "error"
            then .error ⟨(env.op n).path, (env.op n).message⟩
            else .ok (env.decode (env.chunks (env.op n).contentBlob).flatten)))
    ∧ ((∀ j, (env.op j).state ≠ "complete") →
        ∀ f, init_await_fetch_run env f 0 = none) := by
  constructor
  · have := await_fetch_run_reaches env fuel 0 n (Nat.zero_le n) (by omega)
      (fun j _ hj => hpre j hj) ht
    simpa [fetchAnswer] using this
  · intro h f
    exact init_await_fetch_run_stuck env h f 0

/-- A fetch operation that completes immediately, with a two-chunk
blob. -/
def completeFetchEnv : FetchEnv :=
  { op := fun _ => ⟨"complete", "/etc/rancher/k3s/k3s.yaml", "", "b1"⟩
    chunks := fun b => if b = "b1" then [[107], [99]] else []
    decode := fun l => if l = [107, 99] then "kc" else "?" }

/-- Witness for C3 (amended): on an immediately-complete operation,
`await_fetch` returns the decoded concatenation of the blob chunks. -/
theorem await_fetch_terminal_behaviour_witness :
    await_fetch_run completeFetchEnv 1 0 = some (.ok "kc") := by
  have := (await_fetch_terminal_behaviour completeFetchEnv 1 0 (by decide)
    (fun j hj => absurd hj (Nat.not_lt_zero j)) (by decide)).1
  simpa using this

/-- If the operation is never in state `complete`, the `reap_execute`
polling loop never finds it. -/
lemma reap_execute_loop_stuck (states : Nat → String)
    (h : ∀ i, states i ≠ "complete") :
    ∀ fuel i, reap_execute_loop states fuel i = none := by
  intro fuel
  induction fuel with
  | zero => intro i; rfl
  | succ fuel ih =>
    intro i
    have hb : (states i == "complete") = false := by simpa using h i
    simp [reap_execute_loop, hb, ih]

/-- The `reap_execute` loop only ever stops on an observation of the
`complete` state. -/
lemma reap_execute_loop_complete (states : Nat → String) :
    ∀ fuel i j, reap_execute_loop states fuel i = some j → states j = "complete" := by
  intro fuel
  induction fuel with
  | zero => intro i j h; exact absurd h (by simp [reap_execute_loop])
  | succ fuel ih =>
    intro i j h
    by_cases hc : states i = "complete"
    · simp [reap_execute_loop, hc] at h
      simpa [← h] using hc
    · have hb : (states i == "complete") = false := by simpa using hc
      simp only [reap_execute_loop, hb, Bool.false_eq_true, if_false] at h
      exact ih (i + 1) j h

/-- C10: `reap_execute` terminates only when the polled operation is
eventually observed `complete` (the loop stops exactly on a `complete`
observation); for an operation that is never `complete` — in particular
one that reached the terminal `error` state and stays there — the loop
never returns for any number of poll steps, and any `execute_and_await`
reap phase that reaches that operation (every earlier operation having
reaped successfully) never returns either. -/
theorem reap_execute_requires_completion
    (stateOf : α → Nat → String) (resOf : α → ExecResult) (cmdOf : α → String)
    (o : α) (ho : ∀ i, stateOf o i ≠ "complete") :
    (∀ states fuel i j, reap_execute_loop states fuel i = some j →
        states j = "complete")
    ∧ (∀ fuel, reap_execute_loop (stateOf o) fuel 0 = none)
    ∧ (∀ fuel pre rest,
        (∀ p ∈ pre, reap_execute_loop (stateOf p) fuel 0 ≠ none
            ∧ (resOf p).returnCode = 0) →
        reap_batch_run stateOf resOf cmdOf fuel (pre ++ o :: rest) = none) := by
  refine ⟨fun states fuel i j h => reap_execute_loop_complete states fuel i j h,
    fun fuel => reap_execute_loop_stuck (stateOf o) ho fuel 0, ?_⟩
  intro fuel pre
  induction pre with
  | nil =>
    intro rest _
    simp [reap_batch_run, reap_execute_loop_stuck (stateOf o) ho fuel 0]
  | cons p pre ih =>
    intro rest hpre
    have hp := hpre p (List.mem_cons_self p pre)
    rcases hk : reap_execute_loop (stateOf p) fuel 0 with _ | k
    · exact absurd hk hp.1
    · simp only [List.cons_append, reap_batch_run, hk, hp.2, if_pos]
      exact ih rest (fun q hq => hpre q (List.mem_cons_of_mem p hq))

/-- A command operation permanently in the terminal `error` state. -/
def stuckErrorStates : String → Nat → String := fun _ _ => "error"

/-- Witness for C10: a batch whose single operation is stuck in `error`
never returns, here after 500 poll steps. -/
theorem reap_execute_requires_completion_witness :
    reap_batch_run stuckErrorStates (fun _ => ⟨0, "", ""⟩) (fun _ => "apt-get update")
        500 ["op1"] = none := by
  have := (reap_execute_requires_completion stuckErrorStates (fun _ => ⟨0, "", ""⟩)
    (fun _ => "apt-get update") "op1" (fun _ => by
      show "error" ≠ "complete"; decide)).2.2 500 [] []
  simpa using this (by simp)

/-- If the boot wait loop terminates, every instance of the wait set was
observed with power state `created` and agent state `ready` on some
pass. -/
lemma await_boot_loop_satisfied (env : BootEnv) :
    ∀ fuel pass waiting p, await_boot_loop env fuel pass waiting = some p →
      ∀ u ∈ waiting, ∃ k, bootSatisfied (env.instState k u) = true := by
  intro fuel
  induction fuel with
  | zero =>
    intro pass waiting p h u hu
    cases waiting with
    | nil => exact absurd hu (List.not_mem_nil u)
    | cons w rest => exact absurd h (by simp [await_boot_loop])
  | succ fuel ih =>
    intro pass waiting p h u hu
    cases waiting with
    | nil => exact absurd hu (List.not_mem_nil u)
    | cons w rest =>
      by_cases hs : bootSatisfied (env.instState pass u) = true
      · exact ⟨pass, hs⟩
      · have hmem : u ∈ bootPass env pass (w :: rest) := by
          simp [bootPass, List.mem_filter, hu, hs]
        exact ih (pass + 1) (bootPass env pass (w :: rest)) p h u hmem

/-- An instance that is never satisfied keeps the boot wait loop from
terminating. -/
lemma await_boot_loop_stuck (env : BootEnv) (u : String)
    (hu : ∀ k, bootSatisfied (env.instState k u) = false) :
    ∀ fuel pass waiting, u ∈ waiting → await_boot_loop env fuel pass waiting = none := by
  intro fuel
  induction fuel with
  | zero =>
    intro pass waiting hmem
    cases waiting with
    | nil => exact absurd hmem (List.not_mem_nil u)
    | cons w rest => rfl
  | succ fuel ih =>
    intro pass waiting hmem
    cases waiting with
    | nil => exact absurd hmem (List.not_mem_nil u)
    | cons w rest =>
      have hmem2 : u ∈ bootPass env pass (w :: rest) := by
        simp [bootPass, List.mem_filter, hmem, hu pass]
      simpa [await_boot_loop] using ih (pass + 1) (bootPass env pass (w :: rest)) hmem2

/-- C4: `await_boot` returns only when every instance of its input set
has been observed with power state `created` (the running state) and
agent state `ready` on some pass — satisfied instances being removed
from the wait set pass by pass — and on return it has triggered the
OS-update command sequence (`apt-get update; apt-get dist-upgrade -y`
against the whole set); for an input set containing an instance that is
never satisfied, it never returns, whatever the number of passes. -/
theorem await_boot_ready_and_patched (env : BootEnv) (fuel : Nat)
    (instances : List String) :
    (∀ p cmds, await_boot env fuel instances = some (p, cmds) →
        (∀ u ∈ instances, ∃ k, bootSatisfied (env.instState k u) = true)
        ∧ cmds = osUpdateCommands instances)
    ∧ (∀ u ∈ instances, (∀ k, bootSatisfied (env.instState k u) = false) →
        await_boot env fuel instances = none)
    ∧ (∀ pass u rest, await_boot_loop env (fuel + 1) pass (u :: rest)
        = await_boot_loop env fuel (pass + 1) (bootPass env pass (u :: rest))) := by
  refine ⟨?_, ?_, fun pass u rest => rfl⟩
  · intro p cmds h
    rcases Option.map_eq_some'.mp h with ⟨q, hq, hpair⟩
    refine ⟨fun u hu => await_boot_loop_satisfied env fuel 0 instances q hq u hu, ?_⟩
    exact (Prod.mk.injEq _ _ _ _).mp hpair.symm |>.2
  · intro u hu hstuck
    simp [await_boot, await_boot_loop_stuck env u hstuck fuel 0 instances hu]

/-- A boot environment in which every instance is already running and
ready on the first pass. -/
def readyBootEnv : BootEnv := { instState := fun _ _ => ("created", "ready") }

/-- A boot environment in which no instance ever becomes ready. -/
def neverReadyBootEnv : BootEnv := { instState := fun _ _ => ("created", "") }

/-- Witness for C4: with one immediately-ready instance the wait
returns after one pass having triggered the OS-update sequence, and with
one never-ready instance it does not return within 400 passes. -/
theorem await_boot_ready_and_patched_witness :
    (∃ k, bootSatisfied (readyBootEnv.instState k "host-a") = true)
    ∧ await_boot neverReadyBootEnv 400 ["host-b"] = none := by
  constructor
  · exact (((await_boot_ready_and_patched readyBootEnv 1 ["host-a"]).1 1
      (osUpdateCommands ["host-a"]) (by decide)).1 "host-a" (by decide))
  · exact (await_boot_ready_and_patched neverReadyBootEnv 400 ["host-b"]).2.1 "host-b"
      (by decide) (fun k => by show bootSatisfied ("created", "") = false; decide)

/-- Counting a pair in one submission block: the block for command `c`
contains `(i, c)` as often as the instance list contains `i`. -/
lemma count_pair_map (insts : List String) (i c : String) :
    (insts.map (fun j => (j, c))).count (i, c) = insts.count i := by
  induction insts with
  | nil => simp
  | cons a l ih => simp [List.count_cons, ih, Prod.ext_iff]

/-- A submission block for a different command contains no operation for
command `c`. -/
lemma count_pair_map_ne (insts : List String) (i c c' : String) (h : c' ≠ c) :
    (insts.map (fun j => (j, c'))).count (i, c) = 0 := by
  rw [List.count_eq_zero]
  intro hmem
  rcases List.mem_map.mp hmem with ⟨j, _, hj⟩
  exact h (congrArg Prod.snd hj)

/-- Each (instance, command) pair occurs in the submission list as often
as the command occurs in the command list times the instance in the
instance list. -/
lemma submitOps_count (cmds insts : List String) (i c : String) :
    (submitOps cmds insts).count (i, c) = cmds.count c * insts.count i := by
  induction cmds with
  | nil => simp [submitOps]
  | cons c' cs ih =>
    simp only [submitOps, List.flatMap_cons, List.count_append] at *
    by_cases h : c' = c
    · subst h
      rw [count_pair_map, ih, List.count_cons_self]
      ring
    · rw [count_pair_map_ne insts i c c' h, ih, List.count_cons]
      simp [h, Ne.symm h]

/-- An instance outside the instance list has no operations in a
submission block. -/
lemma filter_pair_map_not_mem (insts : List String) (i c : String) (h : i ∉ insts) :
    (insts.map (fun j => (j, c))).filter (fun p => p.1 == i) = [] := by
  rw [List.filter_eq_nil_iff]
  intro p hp
  rcases List.mem_map.mp hp with ⟨j, hj, hje⟩
  subst hje
  simp only [beq_iff_eq]
  intro he
  exact h (he ▸ hj)

/-- For a duplicate-free instance list, the block for command `c`
contains exactly one operation for instance `i`. -/
lemma filter_pair_map (insts : List String) (i c : String) (hn : insts.Nodup)
    (hi : i ∈ insts) :
    (insts.map (fun j => (j, c))).filter (fun p => p.1 == i) = [(i, c)] := by
  induction insts with
  | nil => exact absurd hi (List.not_mem_nil i)
  | cons a l ih =>
    rcases List.mem_cons.mp hi with ha | hl
    · subst ha
      have : i ∉ l := (List.nodup_cons.mp hn).1
      simp [filter_pair_map_not_mem l i c this]
    · have hne : a ≠ i := fun he => (List.nodup_cons.mp hn).1 (he ▸ hl)
      have hb : ((a, c).1 == i) = false := by simpa using hne
      simp only [List.map_cons, List.filter_cons, hb, Bool.false_eq_true, if_false]
      exact ih (List.nodup_cons.mp hn).2 hl

/-- In the submission list, the operations for a given instance are
exactly the commands, in listed order. -/
lemma submitOps_per_instance (cmds insts : List String) (i : String)
    (hn : insts.Nodup) (hi : i ∈ insts) :
    ((submitOps cmds insts).filter (fun p => p.1 == i)).map (fun p => p.2) = cmds := by
  induction cmds with
  | nil => simp [submitOps]
  | cons c cs ih =>
    simp only [submitOps, List.flatMap_cons, List.filter_append, List.map_append] at *
    rw [filter_pair_map insts i c hn hi]
    simpa using ih

/-- The reap phase succeeds exactly when every reaped operation's first
result has return code zero. -/
lemma reapAll_ok_iff (env : ExecEnv) (ops : List (String × String)) :
    (reapAll env ops).2 = .ok () ↔ ∀ op ∈ ops, (env.result op).returnCode = 0 := by
  induction ops with
  | nil => simp [reapAll]
  | cons op rest ih =>
    by_cases h : (env.result op).returnCode = 0
    · simp [reapAll, reapOne, h, ih]
    · simp [reapAll, reapOne, h]

/-- When every return code is zero, every submitted operation is
reaped. -/
lemma reapAll_ok_reaped (env : ExecEnv) (ops : List (String × String))
    (h : ∀ op ∈ ops, (env.result op).returnCode = 0) : (reapAll env ops).1 = ops := by
  induction ops with
  | nil => rfl
  | cons op rest ih =>
    have h0 := h op (List.mem_cons_self op rest)
    simp only [reapAll, reapOne, h0, if_pos]
    simpa using ih (fun q hq => h q (List.mem_cons_of_mem op hq))

/-- A failing reap phase decomposes the operation list at the first
operation with a non-zero return code: everything before it reaped
cleanly, the failure carries that operation's command line, exit code,
stdout and stderr, and exactly the clean prefix plus the failing
operation were reaped. -/
lemma reapAll_error (env : ExecEnv) (ops : List (String × String))
    (e : CommandFailed) (h : (reapAll env ops).2 = .error e) :
    ∃ pre op post, ops = pre ++ op :: post
      ∧ (∀ p ∈ pre, (env.result p).returnCode = 0)
      ∧ (env.result op).returnCode ≠ 0
      ∧ e = ⟨op.2, (env.result op).returnCode, (env.result op).stdout,
              (env.result op).stderr⟩
      ∧ (reapAll env ops).1 = pre ++ [op] := by
  induction ops with
  | nil => exact absurd h (by simp [reapAll])
  | cons op rest ih =>
    by_cases h0 : (env.result op).returnCode = 0
    · simp only [reapAll, reapOne, h0, if_pos] at h ⊢
      rcases ih h with ⟨pre, op1, post, hsplit, hpre, hne, he, hreap⟩
      exact ⟨op :: pre, op1, post, by simp [hsplit],
        fun p hp => (List.mem_cons.mp hp).elim (fun hh => hh ▸ h0) (hpre p),
        hne, he, by simp [hreap]⟩
    · simp only [reapAll, reapOne, h0, if_neg] at h ⊢
      refine ⟨[], op, rest, rfl, by simp, h0, ?_, by simp [reapAll, reapOne, h0]⟩
      simpa [Except.error.injEq] using h.symm

/-- C5: `execute_and_await` submits exactly one operation per
(command, instance) pair of the cartesian product — for each instance
the commands in listed order — waits once for all the instances to be
idle, then reaps the submitted operations in order; it succeeds exactly
when every first result has return code zero (then every submitted
operation was reaped), and on any non-zero return code it aborts with
the command line, exit code, stdout and stderr of the first failing
operation, the full cartesian product having been submitted beforehand
(nothing already executed is rolled back). -/
theorem execute_and_await_cartesian_abort (env : ExecEnv) (insts cmds : List String)
    (hi : insts.Nodup) (hc : cmds.Nodup) :
    ((execute_and_await env insts cmds).submitted = submitOps cmds insts)
    ∧ (∀ c ∈ cmds, ∀ i ∈ insts,
        (execute_and_await env insts cmds).submitted.count (i, c) = 1)
    ∧ (∀ i ∈ insts,
        (((execute_and_await env insts cmds).submitted.filter
            (fun p => p.1 == i)).map (fun p => p.2)) = cmds)
    ∧ ((execute_and_await env insts cmds).idleWaits = [insts])
    ∧ ((execute_and_await env insts cmds).result = .ok ()
        ↔ ∀ op ∈ (execute_and_await env insts cmds).submitted,
            (env.result op).returnCode = 0)
    ∧ ((execute_and_await env insts cmds).result = .ok () →
        (execute_and_await env insts cmds).reaped
          = (execute_and_await env insts cmds).submitted)
    ∧ (∀ e, (execute_and_await env insts cmds).result = .error e →
        ∃ pre op post, (execute_and_await env insts cmds).submitted
            = pre ++ op :: post
          ∧ (∀ p ∈ pre, (env.result p).returnCode = 0)
          ∧ (env.result op).returnCode ≠ 0
          ∧ e = ⟨op.2, (env.result op).returnCode, (env.result op).stdout,
                  (env.result op).stderr⟩
          ∧ (execute_and_await env insts cmds).reaped = pre ++ [op]) := by
  refine ⟨rfl, ?_, ?_, rfl, ?_, ?_, ?_⟩
  · intro c hcm i him
    rw [show (execute_and_await env insts cmds).submitted = submitOps cmds insts from rfl,
      submitOps_count, List.count_eq_one_of_mem hc hcm, List.count_eq_one_of_mem hi him]
  · intro i him
    exact submitOps_per_instance cmds insts i hi him
  · exact reapAll_ok_iff env (submitOps cmds insts)
  · intro hok
    exact reapAll_ok_reaped env (submitOps cmds insts)
      ((reapAll_ok_iff env (submitOps cmds insts)).mp hok)
  · intro e he
    exact reapAll_error env (submitOps cmds insts) e he

/-- A result environment in which `apt-get update` succeeds everywhere
and the k3s installer command exits 1 with captured output. -/
def failSecondEnv : ExecEnv :=
  { result := fun op =>
      if op.2 = "curl -sfL https://get.k3s.io | sh -" then ⟨1, "out", "err"⟩
      else ⟨0, "", ""⟩ }

/-- Witness for C5: a two-command batch over one instance submits both
pairs exactly once and aborts with the failing command's line, exit
code, stdout and stderr. -/
theorem execute_and_await_cartesian_abort_witness :
    (execute_and_await failSecondEnv ["i1"]
        ["apt-get update", "curl -sfL https://get.k3s.io | sh -"]).submitted.count
        ("i1", "curl -sfL https://get.k3s.io | sh -") = 1 := by
  have := (execute_and_await_cartesian_abort failSecondEnv ["i1"]
    ["apt-get update", "curl -sfL https://get.k3s.io | sh -"]
    (by decide) (by decide)).2.1
  exact this "curl -sfL https://get.k3s.io | sh -" (by decide) "i1" (by decide)

/-- C6: for a kubeconfig document whose first cluster entry is named
`default`, the rewrite step for cluster `name` in namespace `namespc`
renames the first cluster's name, the first context's name, that
context's cluster and user references, the first user's name and the
`current-context` to the fully-qualified `name.namespace`, applies the
loopback-to-floating-address substitution to every scalar of the
document, and changes nothing else: all remaining entries and fields are
exactly the originals with only that substitution applied. -/
theorem kubeconfig_rewrite_correct (name namespc floating : String)
    (c : KCluster) (cs : List KCluster) (x : KContext) (xs : List KContext)
    (u : KUser) (us : List KUser) (cur : String) (ex : List (String × String))
    (hdefault : c.name = "default") :
    rewriteKubeconfig name namespc floating ⟨c :: cs, x :: xs, u :: us, cur, ex⟩
      = some
        { clusters :=
            { replaceCluster (loopbackToFloating floating) c with
                name := name ++ "." ++ namespc }
              :: cs.map (replaceCluster (loopbackToFloating floating))
          contexts :=
            { replaceContext (loopbackToFloating floating) x with
                name := name ++ "." ++ namespc
                cluster := name ++ "." ++ namespc
                user := name ++ "." ++ namespc }
              :: xs.map (replaceContext (loopbackToFloating floating))
          users :=
            { replaceUser (loopbackToFloating floating) u with
                name := name ++ "." ++ namespc }
              :: us.map (replaceUser (loopbackToFloating floating))
          currentContext := name ++ "." ++ namespc
          extra := replacePairs (loopbackToFloating floating) ex } := by
  simp [rewriteKubeconfig, kcReplaceAddr, replaceCluster, replaceContext, replaceUser]

/-- A small concrete kubeconfig document as k3s writes it. -/
def sampleKubeconfig : KubeConfig :=
  { clusters := [{ name := "default", server := "https://127.0.0.1:6443"
                   extra := [("certificate-authority-data", "CA0")] }]
    contexts := [{ name := "default", cluster := "default", user := "default"
                   extra := [] }]
    users := [{ name := "default", extra := [("client-certificate-data", "CC0")] }]
    currentContext := "default"
    extra := [("apiVersion", "v1"), ("kind", "Config")] }

/-- Witness for C6: the sample document rewritten for cluster `alpha` in
namespace `team1` with floating address `192.0.2.10`. -/
theorem kubeconfig_rewrite_correct_witness :
    rewriteKubeconfig "alpha" "team1" "192.0.2.10" sampleKubeconfig
      = some
        { clusters := [{ name := "alpha.team1", server := "https://192.0.2.10:6443"
                         extra := [("certificate-authority-data", "CA0")] }]
          contexts := [{ name := "alpha.team1", cluster := "alpha.team1"
                         user := "alpha.team1", extra := [] }]
          users := [{ name := "alpha.team1"
                      extra := [("client-certificate-data", "CC0")] }]
          currentContext := "alpha.team1"
          extra := [("apiVersion", "v1"), ("kind", "Config")] } := by
  have := kubeconfig_rewrite_correct "alpha" "team1" "192.0.2.10"
    { name := "default", server := "https://127.0.0.1:6443"
      extra := [("certificate-authority-data", "CA0")] } []
    { name := "default", cluster := "default", user := "default", extra := [] } []
    { name := "default", extra := [("client-certificate-data", "CC0")] } []
    "default" [("apiVersion", "v1"), ("kind", "Config")] rfl
  rw [show sampleKubeconfig
      = ⟨[{ name := "default", server := "https://127.0.0.1:6443"
            extra := [("certificate-authority-data", "CA0")] }],
         [{ name := "default", cluster := "default", user := "default", extra := [] }],
         [{ name := "default", extra := [("client-certificate-data", "CC0")] }],
         "default", [("apiVersion", "v1"), ("kind", "Config")]⟩ from rfl, this]
  decide

/-- A concrete freshly-initialised cluster record. -/
def mdExample : ClusterMd := initialMd "example" "ns1" "net-0"

/-- Counterexample to C7: `create_instance` in `primitives.py` does not
increment `node_serial` as part of the call — it leaves the record
untouched (the increment is performed by its caller
`create_and_await_instances`), while `_create_instance` in
`__init__.py` does increment. -/
theorem prim_create_instance_no_increment :
    (prim_create_instance mdExample).md.node_serial = mdExample.node_serial
    ∧ ¬ ((prim_create_instance mdExample).md.node_serial
          = mdExample.node_serial + 1)
    ∧ (init_create_instance mdExample).md.node_serial
        = mdExample.node_serial + 1 := by
  decide

/-- The creation loop leaves every field except the serial and the role
lists untouched, creates instances named with consecutive serials,
writes the record back once per creation, and returns the uuids the
compute API handed out, in order. -/
lemma fleetLoop_spec (uuids : Nat → String) (role : NodeRole) :
    ∀ n i md,
      ((fleetLoop uuids role n i md).md.node_serial = md.node_serial + n)
      ∧ ((fleetLoop uuids role n i md).specs.map (fun s => s.name)
          = (List.range' md.node_serial n).map (nodeName md.name))
      ∧ ((fleetLoop uuids role n i md).writes.map (fun w => w.node_serial)
          = List.range' (md.node_serial + 1) n)
      ∧ ((fleetLoop uuids role n i md).newNodes
          = (List.range' i n).map uuids)
      ∧ ((fleetLoop uuids role n i md).md.name = md.name) := by
  intro n
  induction n with
  | zero => intro i md; simp [fleetLoop]
  | succ n ih =>
    intro i md
    have hname : ∀ u, (addRoleNode role u
        { md with node_serial := md.node_serial + 1 }).name = md.name := by
      intro u; cases role <;> rfl
    have hserial : ∀ u, (addRoleNode role u
        { md with node_serial := md.node_serial + 1 }).node_serial
          = md.node_serial + 1 := by
      intro u; cases role <;> rfl
    have hmain := ih (i + 1) (addRoleNode role (uuids i)
      { md with node_serial := md.node_serial + 1 })
    refine ⟨?_, ?_, ?_, ?_, ?_⟩
    · simp only [fleetLoop, hmain.1, hserial]; omega
    · simp only [fleetLoop, List.map_cons, hmain.2.1, hserial, hname,
        prim_create_instance, instanceSpec]
      rw [List.range'_succ]
      rfl
    · simp only [fleetLoop, List.map_cons, hmain.2.2.1, hserial]
      rw [List.range'_succ]
    · simp only [fleetLoop, hmain.2.2.2.1]
      rw [List.range'_succ, List.map_cons]
    · simp only [fleetLoop, hmain.2.2.2.2, hname]

/-- C7 (amended): `_create_instance` (`__init__.py`) allocates one
instance from the fixed hardware template, named exactly by the cluster
name and the current `node_serial`, increments `node_serial` by one as
part of the call, and persists nothing (its caller persists).
`create_instance` (`primitives.py`) computes the same template and name
but leaves the record unchanged; there the increment and the
per-creation persist are performed by `create_and_await_instances`,
which bumps the serial by one per created instance (consecutive names),
writes the record back after every single creation (`n` incremental
writes with strictly increasing serials) and once more after the boot
wait. -/
theorem create_instance_serial_discipline (uuids : Nat → String) (role : NodeRole)
    (n : Nat) (md : ClusterMd) :
    (init_create_instance md
        = ⟨{ md with node_serial := md.node_serial + 1 }, instanceSpec md, []⟩)
    ∧ ((instanceSpec md).name = nodeName md.name md.node_serial)
    ∧ (prim_create_instance md = ⟨md, instanceSpec md, []⟩)
    ∧ ((create_and_await_instances uuids role n md).md.node_serial
        = md.node_serial + n)
    ∧ ((create_and_await_instances uuids role n md).specs.map (fun s => s.name)
        = (List.range' md.node_serial n).map (nodeName md.name))
    ∧ ((create_and_await_instances uuids role n md).writes
        = (fleetLoop uuids role n 0 md).writes
            ++ [(fleetLoop uuids role n 0 md).md])
    ∧ ((fleetLoop uuids role n 0 md).writes.map (fun w => w.node_serial)
        = List.range' (md.node_serial + 1) n) := by
  have h := fleetLoop_spec uuids role n 0 md
  exact ⟨rfl, rfl, rfl, h.1, h.2.1, rfl, h.2.2.1⟩

/-- Counterexample to C1: a full teardown removes the cluster record,
and a re-create of the same name re-initialises `node_serial` to 1, so
the serial history over create → add instance → teardown → create → add
instance is `[1, 1]` (most recent first): serial 1 is used twice — the
two instances get the identical generated name `k3s-alpha-node-001` —
and the counter decreased from 2 back to 1 across the rebuild. -/
theorem nodeSerial_reused_after_rebuild :
    clusterRun "alpha" "ns1" "net-1" (none, [])
        [.createCluster, .addInstance, .teardown, .createCluster, .addInstance]
      = some (some { initialMd "alpha" "ns1" "net-1" with node_serial := 2 }, [1, 1])
    ∧ nodeName "alpha" 1 = "k3s-alpha-node-001" := by
  decide

/-- Within one record's lifetime, each instance creation uses the
current serial and bumps it by one, so a run of `n` creations from a
record uses serials `node_serial, node_serial+1, …` exactly once
each. -/
lemma clusterRun_addInstances (name namespc network : String) :
    ∀ n md log,
      clusterRun name namespc network (some md, log)
          (List.replicate n ClusterEvent.addInstance)
        = some (some { md with node_serial := md.node_serial + n },
                (List.range' md.node_serial n).reverse ++ log) := by
  intro n
  induction n with
  | zero => intro md log; simp [clusterRun]
  | succ n ih =>
    intro md log
    simp only [List.replicate_succ, clusterRun, clusterStep, init_create_instance]
    rw [ih]
    have harith : md.node_serial + 1 + n = md.node_serial + (n + 1) := by omega
    rw [harith, List.range'_succ, List.reverse_cons, List.append_assoc,
      List.singleton_append]

/-- C1 (amended): within a single cluster record's lifetime (any number
of instance creations, including across expansions, with no teardown in
between), `node_serial` strictly increases by one per created instance
— after `n` creations it equals the starting serial plus `n` — and the
serials used to name instances are `node_serial, …, node_serial+n-1`,
pairwise distinct, so no generated name repeats within the lifetime.
(Across a full teardown and re-create of the same cluster name the
counter restarts at 1 and serials are reused; see the counterexample.) -/
theorem nodeSerial_within_lifetime (name namespc network : String)
    (md : ClusterMd) (n : Nat) :
    (clusterRun name namespc network (some md, [])
        (List.replicate n ClusterEvent.addInstance)
      = some (some { md with node_serial := md.node_serial + n },
              (List.range' md.node_serial n).reverse))
    ∧ (List.range' md.node_serial n).reverse.Nodup := by
  refine ⟨by simpa using clusterRun_addInstances name namespc network n md [], ?_⟩
  exact List.nodup_reverse.mpr (List.nodup_range' _ _ 1 (by decide))

/-- C8: teardown's deletion phase iterates the set union of the two
role lists, so every distinct instance id referenced by either list that
still exists receives exactly one delete call; an id whose lookup
reports not-found is skipped (treated as already gone, not an error),
and likewise the wait loop drops an id as soon as its lookup reports
not-found; for a cluster whose instances were all removed out-of-band,
no delete is issued and the wait completes immediately, whatever the
fuel. -/
theorem k3s_delete_dedup_idempotent (env : DeleteEnv) (cp ws : List String) :
    (∀ u, u ∈ cp ++ ws → env.alive u = true →
        (deleteInstancesCalls env cp ws).count u = 1)
    ∧ (∀ u, env.alive u = false → u ∉ deleteInstancesCalls env cp ws)
    ∧ (∀ pass waiting u, env.stateAt pass u = none →
        u ∉ deleteWaitPass env pass waiting)
    ∧ ((∀ u ∈ cp ++ ws, env.alive u = false) →
        deleteInstancesCalls env cp ws = []
        ∧ ∀ fuel, delete_wait_loop env fuel 0 (deleteInstancesCalls env cp ws)
            = some 0) := by
  refine ⟨?_, ?_, ?_, ?_⟩
  · intro u hmem halive
    have hnd : (deleteInstancesCalls env cp ws).Nodup :=
      (List.nodup_dedup (cp ++ ws)).filter _
    have hin : u ∈ deleteInstancesCalls env cp ws :=
      List.mem_filter.mpr ⟨List.mem_dedup.mpr hmem, halive⟩
    exact List.count_eq_one_of_mem hnd hin
  · intro u hdead hmem
    have := (List.mem_filter.mp hmem).2
    rw [hdead] at this
    exact Bool.false_ne_true this
  · intro pass waiting u hnone hmem
    have := (List.mem_filter.mp hmem).2
    rw [hnone] at this
    simp at this
  · intro hall
    have hnil : deleteInstancesCalls env cp ws = [] := by
      rw [deleteInstancesCalls, List.filter_eq_nil_iff]
      intro u hu
      rw [hall u (List.mem_dedup.mp hu)]
      simp
    refine ⟨hnil, fun fuel => ?_⟩
    rw [hnil]
    cases fuel <;> rfl

/-- A deletion environment in which instance `i-a` still exists and
`i-b` was already removed out-of-band; once deleted, lookups report
not-found. -/
def partialGoneEnv : DeleteEnv :=
  { alive := fun u => u == "i-a", stateAt := fun _ _ => none }

/-- A deletion environment in which every instance is already gone. -/
def allGoneEnv : DeleteEnv :=
  { alive := fun _ => false, stateAt := fun _ _ => none }

/-- Witness for C8: with `i-a` referenced by both role lists and `i-b`
already gone, exactly one delete call is issued for `i-a`; and for a
cluster whose instances were all removed out-of-band the wait loop
returns at once. -/
theorem k3s_delete_dedup_idempotent_witness :
    (deleteInstancesCalls partialGoneEnv ["i-a", "i-b"] ["i-a"]).count "i-a" = 1
    ∧ delete_wait_loop allGoneEnv 3 0
        (deleteInstancesCalls allGoneEnv ["i-a"] ["i-b"]) = some 0 := by
  constructor
  · exact (k3s_delete_dedup_idempotent partialGoneEnv ["i-a", "i-b"] ["i-a"]).1
      "i-a" (by decide) (by decide)
  · exact ((k3s_delete_dedup_idempotent allGoneEnv ["i-a"] ["i-b"]).2.2.2
      (fun u _ => rfl)).2 3

/-- The allocation loop appends each successfully routed address to the
in-memory record and emits no metadata write. -/
lemma allocLoop_spec (addrs : Nat → Option String) :
    ∀ n i md,
      allocLoop addrs n i md
        = ({ md with routed_addresses :=
              md.routed_addresses ++ (List.range' i n).filterMap addrs },
           (List.range' i n).map (fun k => AllocEvent.routed (addrs k))) := by
  intro n
  induction n with
  | zero => intro i md; simp [allocLoop]
  | succ n ih =>
    intro i md
    rw [List.range'_succ]
    cases haddr : addrs i with
    | none =>
      simp only [allocLoop, haddr]
      rw [ih]
      simp [List.filterMap_cons, haddr]
    | some a =>
      simp only [allocLoop, haddr]
      rw [ih]
      simp [List.filterMap_cons, haddr, List.append_assoc]

/-- A routing environment handing out consecutive addresses. -/
def addrsSeq : Nat → Option String := fun i => some ("10.0.0." ++ toString (i + 1))

/-- Counterexample to C9: allocating two addresses produces the event
trace route, route, persist — both addresses are allocated before any
metadata write happens, so after the first allocation no persisted
record contains it: the persistence is not incremental and a failure
mid-loop would lose every address allocated in the call. -/
theorem allocate_addresses_not_incremental :
    (allocate_metallb_addresses addrsSeq 2 mdExample).2
      = [AllocEvent.routed (some "10.0.0.1"), AllocEvent.routed (some "10.0.0.2"),
         AllocEvent.persisted
           { mdExample with routed_addresses := ["10.0.0.1", "10.0.0.2"] }]
    ∧ ((allocate_metallb_addresses addrsSeq 2 mdExample).2.take 2).filter
        AllocEvent.isPersisted = [] := by
  decide

/-- C9 (amended): the allocation step appends each successfully routed
address to the in-memory record as it goes, but persists the record
exactly once, after the loop: the event trace is all the route calls
followed by a single metadata write whose record carries every
successfully allocated address. -/
theorem allocate_addresses_single_persist (addrs : Nat → Option String)
    (count : Nat) (md : ClusterMd) :
    (allocate_metallb_addresses addrs count md
      = ({ md with routed_addresses :=
            md.routed_addresses ++ (List.range' 0 count).filterMap addrs },
         (List.range' 0 count).map (fun k => AllocEvent.routed (addrs k))
           ++ [AllocEvent.persisted
                { md with routed_addresses :=
                    md.routed_addresses ++ (List.range' 0 count).filterMap addrs }]))
    ∧ (((allocate_metallb_addresses addrs count md).2.filter
          AllocEvent.isPersisted).length = 1) := by
  have h := allocLoop_spec addrs count 0 md
  have hnil : ((List.range' 0 count).map
      (fun k => AllocEvent.routed (addrs k))).filter AllocEvent.isPersisted = [] := by
    rw [List.filter_eq_nil_iff]
    intro a ha
    rcases List.mem_map.mp ha with ⟨k, _, hk⟩
    subst hk
    simp [AllocEvent.isPersisted]
  constructor
  · simp [allocate_metallb_addresses, h]
  · simp [allocate_metallb_addresses, h, List.filter_append, hnil,
      AllocEvent.isPersisted]

end K3sPlugin
